import Mathlib

/-!
Shallow embedding of the order-lifecycle / customer-balance ledger of the
BE-Notification backend (order controller). Monetary amounts are modelled as
exact rationals (`Rat`); the JavaScript source applies `parseFloat` to request
values, so numeric inputs are taken directly as rationals. Each HTTP handler
is embedded as a pure function from the fetched database rows (passed as an
`Option`, `none` meaning the lookup failed) and the request-body fields to
`Except Err (Order × Customer)`: an `Except.error` corresponds to an early
4xx response issued before the transaction, an `Except.ok` to the state the
transaction commits.
-/

namespace OrderLedger

/-- Error taxonomy of the HTTP handlers: 404 responses are `notFound`,
400 responses are `validation`, each carrying the response message. -/
inductive Err where
  | notFound (msg : String)
  | validation (msg : String)
deriving DecidableEq, Repr

/-- Order status strings stored in the database. -/
inductive OrderStatus where
  | PENDING
  | ASSIGNED
  | CREATED
  | IN_PROGRESS
  | DELIVERED
  | COMPLETED
  | CANCELLED
deriving DecidableEq, Repr

/-- Order type strings. -/
inductive OrderType where
  | DELIVERY
  | WALKIN
  | CLEARBILL
  | ENROUTE
deriving DecidableEq, Repr

/-- Payment status strings. -/
inductive PaymentStatus where
  | NOT_PAID
  | PARTIAL
  | PAID
  | OVERPAID
  | REFUND
deriving DecidableEq, Repr

/-- The customer row, reduced to the field the ledger logic reads and
writes: `currentBalance`. -/
structure Customer where
  currentBalance : Rat
deriving DecidableEq, Repr

/-- The order row, reduced to the fields the order controller reads and
writes.  `customerBalance` is the snapshot of the customer's balance taken
at creation time; `riderId` is the optional rider reference. -/
structure Order where
  orderType : OrderType
  status : OrderStatus
  riderId : Option Nat
  numberOfBottles : Int
  currentOrderAmount : Rat
  customerBalance : Rat
  totalAmount : Rat
  paidAmount : Rat
  paymentStatus : PaymentStatus
  receivable : Rat
  payable : Rat
  paymentMethod : String
  paymentNotes : Option String
  notes : Option String
  priority : String
deriving DecidableEq, Repr

/-- JavaScript `parseInt` applied to a numeric request value: truncation
toward zero. -/
def jsParseInt (q : Rat) : Int :=
  if 0 ≤ q then q.floor else q.ceil

/-- `createOrder` handler.  `customer?` is the result of the customer lookup
(`findFirst` for the walk-in sentinel or `findUnique` otherwise).  Validates
the type/rider constraints, snapshots the customer balance, computes
`currentOrderAmount = numberOfBottles * unitPrice` and
`totalAmount = snapshot + currentOrderAmount`, chooses the initial status
from the order type, and raises the customer's live balance to
`totalAmount`. -/
def createOrder (customer? : Option Customer) (numberOfBottles unitPrice : Rat)
    (orderType : OrderType) (riderId : Option Nat)
    (notes : Option String) (priority : String) : Except Err (Order × Customer) :=
  if orderType = .DELIVERY ∧ riderId = none then
    .error (.validation "Rider ID is required for delivery orders")
  else if orderType = .WALKIN ∧ riderId.isSome then
    .error (.validation "Rider ID should not be provided for walk-in orders")
  else
    match customer? with
    | none => .error (.notFound "Customer not found")
    | some customer =>
      let customerBalance := customer.currentBalance
      let currentOrderAmount := numberOfBottles * unitPrice
      let totalAmount := customerBalance + currentOrderAmount
      let initialStatus : OrderStatus :=
        if orderType = .WALKIN then .CREATED
        else if orderType = .DELIVERY ∧ riderId.isSome then .ASSIGNED
        else .PENDING
      let newOrder : Order :=
        { orderType := orderType
          status := initialStatus
          riderId := if orderType = .DELIVERY then riderId else none
          numberOfBottles := jsParseInt numberOfBottles
          currentOrderAmount := currentOrderAmount
          customerBalance := customerBalance
          totalAmount := totalAmount
          paidAmount := 0
          paymentStatus := .NOT_PAID
          receivable := 0
          payable := 0
          paymentMethod := "CASH"
          paymentNotes := none
          notes := notes
          priority := priority.toUpper }
      .ok (newOrder, { customer with currentBalance := totalAmount })

/-- `deliverOrder` handler.  `order?` is the order lookup result together
with its included customer.  No status or type precondition: any found
order is settled and marked `DELIVERED`.  The settlement statements are
translated one-for-one from the handler body (the source repeats them in
`completeWalkInOrder`; the duplication is kept so their equivalence is a
theorem, not a definition). -/
def deliverOrder (order? : Option (Order × Customer))
    (paymentAmount : Rat) (paymentMethod : String) (notes : Option String) :
    Except Err (Order × Customer) :=
  match order? with
  | none => .error (.notFound "Order not found")
  | some (order, customer) =>
    let total := order.totalAmount
    let paid := paymentAmount
    let remaining := total - paid
    let paymentStatus : PaymentStatus :=
      if paid = 0 then .NOT_PAID
      else if paid < 0 then .REFUND
      else if paid > 0 ∧ paid < total then .PARTIAL
      else if paid = total then .PAID
      else if paid > total then .OVERPAID
      else .NOT_PAID
    let receivable : Rat := if remaining > 0 then remaining else 0
    let payable : Rat := if remaining < 0 then |remaining| else 0
    let newCustomerBalance := customer.currentBalance - paid
    .ok ({ order with
            status := .DELIVERED
            paidAmount := paid
            paymentStatus := paymentStatus
            paymentMethod := paymentMethod
            paymentNotes := notes
            receivable := receivable
            payable := payable },
         { customer with currentBalance := newCustomerBalance })

/-- `completeWalkInOrder` handler: only for `WALKIN` orders in status
`CREATED`; the settlement statements are the same sequence as in
`deliverOrder`, with final status `COMPLETED`. -/
def completeWalkInOrder (order? : Option (Order × Customer))
    (paymentAmount : Rat) (paymentMethod : String) (notes : Option String) :
    Except Err (Order × Customer) :=
  match order? with
  | none => .error (.notFound "Order not found")
  | some (order, customer) =>
    if order.orderType ≠ .WALKIN then
      .error (.validation "This endpoint is only for walk-in orders")
    else if order.status ≠ .CREATED then
      .error (.validation "Order is not in CREATED status")
    else
      let total := order.totalAmount
      let paid := paymentAmount
      let remaining := total - paid
      let paymentStatus : PaymentStatus :=
        if paid = 0 then .NOT_PAID
        else if paid < 0 then .REFUND
        else if paid > 0 ∧ paid < total then .PARTIAL
        else if paid = total then .PAID
        else if paid > total then .OVERPAID
        else .NOT_PAID
      let receivable : Rat := if remaining > 0 then remaining else 0
      let payable : Rat := if remaining < 0 then |remaining| else 0
      let newCustomerBalance := customer.currentBalance - paid
      .ok ({ order with
              status := .COMPLETED
              paidAmount := paid
              paymentStatus := paymentStatus
              paymentMethod := paymentMethod
              paymentNotes := notes
              receivable := receivable
              payable := payable },
           { customer with currentBalance := newCustomerBalance })

/-- `cancelOrder` handler: rejected on already-cancelled and delivered
orders, otherwise marks the order `CANCELLED` and reverts the customer's
balance to the snapshot stored on the order. -/
def cancelOrder (order? : Option (Order × Customer)) :
    Except Err (Order × Customer) :=
  match order? with
  | none => .error (.notFound "Order not found")
  | some (order, customer) =>
    if order.status = .CANCELLED then
      .error (.validation "Order is already cancelled")
    else if order.status = .DELIVERED then
      .error (.validation "Cannot cancel a delivered order")
    else
      .ok ({ order with status := .CANCELLED },
           { customer with currentBalance := order.customerBalance })

/-- Generic `updateOrder` handler (the details-update endpoint): each field
present in the request body is written onto the order as-is; in particular a
supplied `totalAmount` is stored without touching `customerBalance` or
`currentOrderAmount`.  The handler performs no lookup of its own (a missing
order surfaces as a storage error), so it is embedded directly on the
order row. -/
def updateOrder (order : Order) (totalAmount? : Option Rat)
    (notes? : Option String) (priority? : Option String)
    (numberOfBottles? : Option Rat) (status? : Option OrderStatus)
    (riderId? : Option (Option Nat)) : Order :=
  let o1 := match totalAmount? with
    | some t => { order with totalAmount := t }
    | none => order
  let o2 := match notes? with
    | some n => { o1 with notes := some n }
    | none => o1
  let o3 := match priority? with
    | some p => { o2 with priority := p.toUpper }
    | none => o2
  let o4 := match numberOfBottles? with
    | some b => { o3 with numberOfBottles := jsParseInt b }
    | none => o3
  let o5 := match status? with
    | some s => { o4 with status := s }
    | none => o4
  match riderId? with
  | some r => { o5 with riderId := r }
  | none => o5

/-- `clearBill` handler.  `customerId?` models presence of the `customerId`
request field, `customer?` the lookup result, `paidAmount?` presence of the
`paidAmount` field.  Rejects a zero balance before any write; on a positive
balance clears a receivable, on a negative balance a payable with the paid
amount's sign inverted; creates a `CLEARBILL` order directly in status
`COMPLETED` and moves the customer balance to `balance - adjustedPaid`. -/
def clearBill (customerId? : Option String) (customer? : Option Customer)
    (paidAmount? : Option Rat) (paymentMethod : String)
    (paymentNotes : Option String) (priority : String) :
    Except Err (Order × Customer) :=
  match customerId? with
  | none => .error (.validation "Customer ID is required")
  | some _ =>
    match paidAmount? with
    | none => .error (.validation "Paid amount is required")
    | some paidAmount =>
      match customer? with
      | none => .error (.notFound "Customer not found")
      | some customer =>
        let customerBalance := customer.currentBalance
        let paid := paidAmount
        if customerBalance = 0 then
          .error (.validation "Customer balance is already zero")
        else
          let totalAmount := customerBalance
          let result : PaymentStatus × Rat × Rat × Rat :=
            if customerBalance > 0 then
              -- receivable case: customer owes the business
              let receivable := customerBalance
              let remainingReceivable := receivable - paid
              let adjustedPaid := paid
              if remainingReceivable = 0 then
                (.PAID, 0, 0, adjustedPaid)
              else if remainingReceivable < 0 then
                (.OVERPAID, 0, |remainingReceivable|, adjustedPaid)
              else if paid > 0 then
                (.PARTIAL, remainingReceivable, 0, adjustedPaid)
              else
                (.NOT_PAID, receivable, 0, adjustedPaid)
            else
              -- payable case: the business owes the customer
              let payable := |customerBalance|
              let remainingPayable := payable - paid
              let adjustedPaid := -paid
              if remainingPayable = 0 then
                (.PAID, 0, 0, adjustedPaid)
              else if remainingPayable < 0 then
                (.OVERPAID, |remainingPayable|, 0, adjustedPaid)
              else if paid > 0 then
                (.PARTIAL, 0, remainingPayable, adjustedPaid)
              else
                (.NOT_PAID, 0, payable, adjustedPaid)
          let paymentStatus := result.1
          let receivable := result.2.1
          let payable := result.2.2.1
          let adjustedPaid := result.2.2.2
          let newCustomerBalance := customerBalance - adjustedPaid
          let newOrder : Order :=
            { orderType := .CLEARBILL
              status := .COMPLETED
              riderId := none
              numberOfBottles := 0
              currentOrderAmount := 0
              customerBalance := customerBalance
              totalAmount := totalAmount
              paidAmount := adjustedPaid
              paymentStatus := paymentStatus
              receivable := receivable
              payable := payable
              paymentMethod := paymentMethod.toUpper
              paymentNotes := paymentNotes
              notes := none
              priority := priority.toUpper }
          .ok (newOrder, { customer with currentBalance := newCustomerBalance })

/-- `amendOrder` handler: only for orders whose status is `PENDING`,
`ASSIGNED` or `IN_PROGRESS`; requires `numberOfBottles` and `unitPrice`;
keeps the stored snapshot, recomputes `currentOrderAmount` and
`totalAmount = snapshot + currentOrderAmount`, and (reverting to the
snapshot first, then reapplying inside the same transaction) leaves the
customer's balance at the new `totalAmount`. -/
def amendOrder (order? : Option (Order × Customer))
    (numberOfBottles? unitPrice? : Option Rat)
    (notes? : Option String) (priority? : Option String)
    (riderId? : Option (Option Nat)) : Except Err (Order × Customer) :=
  match order? with
  | none => .error (.notFound "Order not found")
  | some (order, customer) =>
    if ¬(order.status = .PENDING ∨ order.status = .ASSIGNED ∨
         order.status = .IN_PROGRESS) then
      .error (.validation "Only in-progress orders can be amended")
    else
      match numberOfBottles?, unitPrice? with
      | some numberOfBottles, some unitPrice =>
        let snapshotBalance := order.customerBalance
        let newCurrentOrderAmount := numberOfBottles * unitPrice
        let newTotalAmount := snapshotBalance + newCurrentOrderAmount
        let o1 : Order :=
          { order with
              numberOfBottles := jsParseInt numberOfBottles
              totalAmount := newTotalAmount
              currentOrderAmount := newCurrentOrderAmount }
        let o2 := match notes? with
          | some n => { o1 with notes := some n }
          | none => o1
        let o3 := match priority? with
          | some p => { o2 with priority := p.toUpper }
          | none => o2
        let o4 := match riderId? with
          | some r => { o3 with riderId := r }
          | none => o3
        .ok (o4, { customer with currentBalance := newTotalAmount })
      | _, _ => .error (.validation "numberOfBottles and unitPrice are required")

/-- The payment-status derivation table of the spec, read as an ordered
decision list (paid = amount received, total = amount owed):
`paid == 0 → NOT_PAID`, `paid < 0 → REFUND`, `0 < paid < total → PARTIAL`,
`paid == total → PAID`, `paid > total → OVERPAID`. -/
def paymentStatusTable (total paid : Rat) : PaymentStatus :=
  if paid = 0 then .NOT_PAID
  else if paid < 0 then .REFUND
  else if 0 < paid ∧ paid < total then .PARTIAL
  else if paid = total then .PAID
  else if paid > total then .OVERPAID
  else .NOT_PAID

/-- The order/customer fixture used by the concrete scenarios: a delivery
order of 2 bottles at 50 over a zero snapshot (`totalAmount = 100`), whose
customer currently carries that balance of 100. -/
def baseOrder : Order :=
  { orderType := .DELIVERY
    status := .ASSIGNED
    riderId := some 1
    numberOfBottles := 2
    currentOrderAmount := 100
    customerBalance := 0
    totalAmount := 100
    paidAmount := 0
    paymentStatus := .NOT_PAID
    receivable := 0
    payable := 0
    paymentMethod := "CASH"
    paymentNotes := none
    notes := none
    priority := "NORMAL" }

/-- Customer fixture carrying balance 100 (the live balance after creating
`baseOrder`). -/
def cust100 : Customer := ⟨100⟩

/-- Customer fixture for the clear-bill scenario: the business owes the
customer 30. -/
def custNeg30 : Customer := ⟨-30⟩

/-- The order clear-bill produces for `custNeg30` with `paidAmount = 30`. -/
def clearedOrderNeg30 : Order :=
  { orderType := .CLEARBILL, status := .COMPLETED, riderId := none,
    numberOfBottles := 0, currentOrderAmount := 0, customerBalance := -30,
    totalAmount := -30, paidAmount := -30, paymentStatus := .PAID,
    receivable := 0, payable := 0, paymentMethod := "CASH".toUpper,
    paymentNotes := none, notes := none, priority := "NORMAL".toUpper }

/-- The walk-in fixture: the `baseOrder` amounts as a WALKIN order awaiting
payment (status `CREATED`, no rider). -/
def walkOrder : Order :=
  { baseOrder with orderType := .WALKIN, status := .CREATED, riderId := none }

/-- The order deliver produces from `baseOrder`/`cust100` with a payment
of 60. -/
def deliveredOrder60 : Order :=
  { baseOrder with
      status := .DELIVERED
      paidAmount := 60
      paymentStatus := .PARTIAL
      receivable := 40 }

/-- A zero-total variant of the fixture (balance snapshot 0, no order
amount): reachable, e.g. by creating with `unitPrice = 0` on a
zero-balance customer. -/
def zeroTotalOrder : Order :=
  { baseOrder with totalAmount := 0, currentOrderAmount := 0 }

/-- The order deliver produces from `zeroTotalOrder` with a payment of 0. -/
def zeroSettled : Order :=
  { zeroTotalOrder with
      status := .DELIVERED
      paidAmount := 0
      paymentStatus := .NOT_PAID
      receivable := 0
      payable := 0 }

/-- The amount equation of the spec: an order's `totalAmount` equals its
stored balance snapshot plus its `currentOrderAmount`. -/
def amountInvariant (o : Order) : Prop :=
  o.totalAmount = o.customerBalance + o.currentOrderAmount

section Helpers

lemma ite_pos_eq_max (x : Rat) : (if x > 0 then x else 0) = max x 0 := by
  rcases le_or_lt x 0 with h | h
  · rw [if_neg (not_lt.mpr h), max_eq_right h]
  · rw [if_pos h, max_eq_left h.le]

lemma ite_neg_abs_eq_max (x : Rat) : (if x < 0 then |x| else 0) = max (-x) 0 := by
  rcases lt_or_le x 0 with h | h
  · rw [if_pos h, abs_of_neg h, max_eq_left (by linarith)]
  · rw [if_neg (not_lt.mpr h), max_eq_right (by linarith)]

lemma ite_pair_zero_or (x : Rat) :
    (if x > 0 then x else 0) = 0 ∨ (if x < 0 then |x| else 0) = 0 := by
  rcases le_or_lt x 0 with h | h
  · left; rw [if_neg (not_lt.mpr h)]
  · right; rw [if_neg (not_lt.mpr h.le)]

lemma ite_pair_zero_iff (x : Rat) :
    ((if x > 0 then x else 0) = 0 ∧ (if x < 0 then |x| else 0) = 0) ↔ x = 0 := by
  constructor
  · rintro ⟨h1, h2⟩
    by_contra hx
    rcases lt_or_gt_of_ne hx with h | h
    · rw [if_pos h] at h2
      exact hx (abs_eq_zero.mp h2)
    · rw [if_pos h] at h1
      exact absurd h1 (ne_of_gt h)
  · rintro rfl
    norm_num

lemma paymentChain_eq_paid {total paid : Rat}
    (h : (if paid = 0 then PaymentStatus.NOT_PAID
          else if paid < 0 then .REFUND
          else if paid > 0 ∧ paid < total then .PARTIAL
          else if paid = total then .PAID
          else if paid > total then .OVERPAID
          else .NOT_PAID) = .PAID) : paid = total := by
  split_ifs at h <;> simp_all

lemma clearBill_neg30_eval :
    clearBill (some "c") (some custNeg30) (some 30) "CASH" none "NORMAL" =
      .ok (clearedOrderNeg30, ⟨0⟩) := by
  have habs : |(-30 : Rat)| = 30 := by
    rw [abs_of_nonpos (by norm_num)]; norm_num
  simp only [clearBill, custNeg30]
  rw [if_neg (by norm_num), if_neg (by norm_num)]
  rw [habs, if_pos (show (30 : Rat) - 30 = 0 by norm_num)]
  simp only [clearedOrderNeg30, Except.ok.injEq, Prod.mk.injEq, Order.mk.injEq,
    Customer.mk.injEq]
  norm_num

lemma deliver60_eval :
    deliverOrder (some (baseOrder, cust100)) 60 "CASH" none =
      .ok (deliveredOrder60, ⟨40⟩) := by
  simp only [deliverOrder, Except.ok.injEq, Prod.mk.injEq, deliveredOrder60,
    baseOrder, cust100, Order.mk.injEq, Customer.mk.injEq]
  norm_num

lemma zeroSettled_eval :
    deliverOrder (some (zeroTotalOrder, ⟨0⟩)) 0 "CASH" none =
      .ok (zeroSettled, ⟨0⟩) := by
  simp only [deliverOrder, Except.ok.injEq, Prod.mk.injEq, zeroSettled,
    zeroTotalOrder, baseOrder, Order.mk.injEq, Customer.mk.injEq]
  norm_num

end Helpers

/-- C1: for every order with total amount `T` and payment `p`, deliver sets
`paidAmount = p`, derives `paymentStatus` per the spec table, sets
`receivable = max (T - p) 0` and `payable = max (-(T - p)) 0`, subtracts
`p` from the customer's current balance, and marks the order `DELIVERED`;
in particular `paymentAmount = 60` on the `totalAmount = 100` fixture gives
`PARTIAL`, `receivable = 40`, and the customer balance drops by 60. -/
theorem deliverOrder_settlement_spec :
    (∀ (o : Order) (c : Customer) (p : Rat) (pm : String) (nt : Option String),
      ∃ o' c', deliverOrder (some (o, c)) p pm nt = .ok (o', c') ∧
        o'.paidAmount = p ∧
        o'.paymentStatus = paymentStatusTable o.totalAmount p ∧
        o'.receivable = max (o.totalAmount - p) 0 ∧
        o'.payable = max (-(o.totalAmount - p)) 0 ∧
        c'.currentBalance = c.currentBalance - p ∧
        o'.status = .DELIVERED) ∧
    (∃ o' c', deliverOrder (some (baseOrder, cust100)) 60 "CASH" none = .ok (o', c') ∧
      o'.paymentStatus = .PARTIAL ∧ o'.receivable = 40 ∧
      c'.currentBalance = cust100.currentBalance - 60) := by
  constructor
  · intro o c p pm nt
    refine ⟨_, _, rfl, rfl, ?_, ?_, ?_, rfl, rfl⟩
    · simp only [paymentStatusTable]
    · exact ite_pos_eq_max _
    · exact ite_neg_abs_eq_max _
  · refine ⟨_, _, rfl, ?_, ?_, ?_⟩ <;> norm_num [baseOrder, cust100]

/-- C10: deliver has no precondition beyond existence.  A missing order is
the only `NotFound` failure; every found order — whatever its status or
type, including already `DELIVERED`, `CANCELLED` or `COMPLETED` ones — is
settled again: status set to `DELIVERED` and `paymentAmount` subtracted
from the customer's balance once more. -/
theorem deliverOrder_no_precondition :
    (∀ (p : Rat) (pm : String) (nt : Option String),
      deliverOrder none p pm nt = .error (.notFound "Order not found")) ∧
    (∀ (o : Order) (c : Customer) (p : Rat) (pm : String) (nt : Option String),
      ∃ o' c', deliverOrder (some (o, c)) p pm nt = .ok (o', c') ∧
        o'.status = .DELIVERED ∧ o'.paidAmount = p ∧
        c'.currentBalance = c.currentBalance - p) := by
  refine ⟨fun p pm nt => rfl, fun o c p pm nt => ⟨_, _, rfl, rfl, rfl, rfl⟩⟩

/-- C5: cancel succeeds from any status except `DELIVERED` and `CANCELLED`,
marking the order `CANCELLED` and resetting the customer's balance to the
snapshot; on a `DELIVERED` or `CANCELLED` order it returns a `Validation`
error (the embedding returns the error before any state is produced,
mirroring the handler's early return ahead of the transaction). -/
theorem cancelOrder_guard (o : Order) (c : Customer) :
    (o.status = .DELIVERED ∨ o.status = .CANCELLED →
      ∃ m, cancelOrder (some (o, c)) = .error (.validation m)) ∧
    (o.status ≠ .DELIVERED ∧ o.status ≠ .CANCELLED →
      ∃ o' c', cancelOrder (some (o, c)) = .ok (o', c') ∧
        o'.status = .CANCELLED ∧ c'.currentBalance = o.customerBalance) := by
  constructor
  · rintro (h | h) <;> simp [cancelOrder, h]
  · rintro ⟨h1, h2⟩
    simp only [cancelOrder, if_neg h2, if_neg h1]
    exact ⟨_, _, rfl, rfl, rfl⟩

/-- Witness for `cancelOrder_guard`: cancelling a delivered fixture fails
with a `Validation` error, cancelling the assigned fixture succeeds and
restores the snapshot balance 0. -/
theorem cancelOrder_guard_witness :
    (∃ m, cancelOrder (some ({ baseOrder with status := .DELIVERED }, cust100)) =
        .error (.validation m)) ∧
    (∃ o' c', cancelOrder (some (baseOrder, cust100)) = .ok (o', c') ∧
      o'.status = .CANCELLED ∧ c'.currentBalance = baseOrder.customerBalance) :=
  ⟨(cancelOrder_guard { baseOrder with status := .DELIVERED } cust100).1 (Or.inl rfl),
   (cancelOrder_guard baseOrder cust100).2 (by constructor <;> simp [baseOrder])⟩

/-- C2: a create that passes the type/rider validation snapshots the
customer's pre-create balance `B` on the order, sets
`totalAmount = B + bottles * unitPrice`, raises the live balance to
`totalAmount`, and an immediately following cancel succeeds and resets the
customer's balance to exactly `B`. -/
theorem create_cancel_roundtrip (cust : Customer) (n u : Rat) (ot : OrderType)
    (r : Option Nat) (nt : Option String) (pr : String)
    (h1 : ¬(ot = .DELIVERY ∧ r = none)) (h2 : ¬(ot = .WALKIN ∧ r.isSome)) :
    ∃ o c1, createOrder (some cust) n u ot r nt pr = .ok (o, c1) ∧
      o.customerBalance = cust.currentBalance ∧
      o.totalAmount = cust.currentBalance + n * u ∧
      c1.currentBalance = o.totalAmount ∧
      ∃ o2 c2, cancelOrder (some (o, c1)) = .ok (o2, c2) ∧
        o2.status = .CANCELLED ∧ c2.currentBalance = cust.currentBalance := by
  simp only [createOrder, if_neg h1, if_neg h2]
  refine ⟨_, _, rfl, rfl, rfl, rfl, ?_⟩
  simp only [cancelOrder]
  split_ifs <;> first | exact ⟨_, _, rfl, rfl, rfl⟩ | simp_all

/-- Witness for `create_cancel_roundtrip`: a delivery order of 2 bottles at
50 for the balance-100 customer, created and immediately cancelled. -/
theorem create_cancel_roundtrip_witness :
    ∃ o c1, createOrder (some cust100) 2 50 .DELIVERY (some 1) none "NORMAL" = .ok (o, c1) ∧
      o.customerBalance = cust100.currentBalance ∧
      o.totalAmount = cust100.currentBalance + 2 * 50 ∧
      c1.currentBalance = o.totalAmount ∧
      ∃ o2 c2, cancelOrder (some (o, c1)) = .ok (o2, c2) ∧
        o2.status = .CANCELLED ∧ c2.currentBalance = cust100.currentBalance :=
  create_cancel_roundtrip cust100 2 50 .DELIVERY (some 1) none "NORMAL"
    (by simp) (by simp)

/-- C6: amend returns a `Validation` error whenever the order's status is
outside {`PENDING`, `ASSIGNED`, `IN_PROGRESS`}; a legal amend keeps the
stored snapshot, sets `totalAmount = snapshot + bottles * unitPrice` and
leaves the customer's balance at that total; and amending a freshly created
delivery order once or twice with the create's own bottle count and unit
price reproduces the create's `totalAmount` and customer balance
(idempotence). -/
theorem amendOrder_contract :
    (∀ (o : Order) (c : Customer) (nb? up? : Option Rat) (nt? pr? : Option String)
        (r? : Option (Option Nat)),
      ¬(o.status = .PENDING ∨ o.status = .ASSIGNED ∨ o.status = .IN_PROGRESS) →
      amendOrder (some (o, c)) nb? up? nt? pr? r? =
        .error (.validation "Only in-progress orders can be amended")) ∧
    (∀ (o : Order) (c : Customer) (n u : Rat) (nt? pr? : Option String)
        (r? : Option (Option Nat)),
      o.status = .PENDING ∨ o.status = .ASSIGNED ∨ o.status = .IN_PROGRESS →
      ∃ o' c', amendOrder (some (o, c)) (some n) (some u) nt? pr? r? = .ok (o', c') ∧
        o'.customerBalance = o.customerBalance ∧
        o'.totalAmount = o.customerBalance + n * u ∧
        c'.currentBalance = o'.totalAmount ∧
        o'.status = o.status) ∧
    (∀ (cust : Customer) (n u : Rat) (rid : Nat) (nt : Option String) (pr : String),
      ∃ o c1, createOrder (some cust) n u .DELIVERY (some rid) nt pr = .ok (o, c1) ∧
        ∃ o2 c2, amendOrder (some (o, c1)) (some n) (some u) none none none = .ok (o2, c2) ∧
          o2.totalAmount = o.totalAmount ∧ c2.currentBalance = c1.currentBalance ∧
          ∃ o3 c3, amendOrder (some (o2, c2)) (some n) (some u) none none none = .ok (o3, c3) ∧
            o3.totalAmount = o.totalAmount ∧ c3.currentBalance = c1.currentBalance) := by
  refine ⟨?_, ?_, ?_⟩
  · intro o c nb? up? nt? pr? r? h
    simp only [amendOrder, if_pos h]
  · intro o c n u nt? pr? r? h
    simp only [amendOrder, if_neg (not_not_intro h)]
    rcases nt? with _ | n1 <;> rcases pr? with _ | p1 <;> rcases r? with _ | r1 <;>
      exact ⟨_, _, rfl, rfl, rfl, rfl, rfl⟩
  · intro cust n u rid nt pr
    exact ⟨_, _, rfl, _, _, rfl, rfl, rfl, _, _, rfl, rfl, rfl⟩

/-- Witness for `amendOrder_contract`: amending a delivered fixture fails;
amending the assigned fixture with 3 bottles at 40 moves its total to
`0 + 3 * 40`. -/
theorem amendOrder_contract_witness :
    (amendOrder (some ({ baseOrder with status := .DELIVERED }, cust100))
        (some 3) (some 40) none none none =
      .error (.validation "Only in-progress orders can be amended")) ∧
    (∃ o' c', amendOrder (some (baseOrder, cust100)) (some 3) (some 40) none none none =
        .ok (o', c') ∧
      o'.customerBalance = baseOrder.customerBalance ∧
      o'.totalAmount = baseOrder.customerBalance + 3 * 40 ∧
      c'.currentBalance = o'.totalAmount ∧
      o'.status = baseOrder.status) :=
  ⟨amendOrder_contract.1 { baseOrder with status := .DELIVERED } cust100
      (some 3) (some 40) none none none (by simp [baseOrder]),
   amendOrder_contract.2.1 baseOrder cust100 3 40 none none none
      (by simp [baseOrder])⟩

/-- C3 (amended): the equation `totalAmount = snapshot + currentOrderAmount`
is established by create, amend and clear-bill, and preserved by deliver,
complete-walk-in, cancel, and by the generic order update when no
`totalAmount` is supplied.  (The generic update with a `totalAmount` in the
body can break it; see the counterexample.) -/
theorem amount_invariant_lifecycle :
    (∀ (cust? : Option Customer) (n u : Rat) (ot : OrderType) (r : Option Nat)
        (nt : Option String) (pr : String) (o : Order) (c1 : Customer),
      createOrder cust? n u ot r nt pr = .ok (o, c1) → amountInvariant o) ∧
    (∀ (x? : Option (Order × Customer)) (nb? up? : Option Rat)
        (nt? pr? : Option String) (r? : Option (Option Nat)) (o' : Order) (c' : Customer),
      amendOrder x? nb? up? nt? pr? r? = .ok (o', c') → amountInvariant o') ∧
    (∀ (cid? : Option String) (cust? : Option Customer) (p? : Option Rat)
        (pm : String) (pn : Option String) (pr : String) (o : Order) (c' : Customer),
      clearBill cid? cust? p? pm pn pr = .ok (o, c') → amountInvariant o) ∧
    (∀ (o : Order) (c : Customer) (p : Rat) (pm : String) (nt : Option String)
        (o' : Order) (c' : Customer),
      amountInvariant o → deliverOrder (some (o, c)) p pm nt = .ok (o', c') →
      amountInvariant o') ∧
    (∀ (o : Order) (c : Customer) (p : Rat) (pm : String) (nt : Option String)
        (o' : Order) (c' : Customer),
      amountInvariant o → completeWalkInOrder (some (o, c)) p pm nt = .ok (o', c') →
      amountInvariant o') ∧
    (∀ (o : Order) (c : Customer) (o' : Order) (c' : Customer),
      amountInvariant o → cancelOrder (some (o, c)) = .ok (o', c') →
      amountInvariant o') ∧
    (∀ (o : Order) (nt? pr? : Option String) (nb? : Option Rat)
        (st? : Option OrderStatus) (r? : Option (Option Nat)),
      amountInvariant o →
      amountInvariant (updateOrder o none nt? pr? nb? st? r?)) := by
  refine ⟨?_, ?_, ?_, ?_, ?_, ?_, ?_⟩
  · intro cust? n u ot r nt pr o c1 h
    rcases cust? with _ | cust
    · simp only [createOrder] at h
      split_ifs at h
    · simp only [createOrder] at h
      split_ifs at h <;> simp at h <;>
        (obtain ⟨rfl, rfl⟩ := h; simp [amountInvariant])
  · intro x? nb? up? nt? pr? r? o' c' h
    rcases x? with _ | ⟨o, c⟩
    · simp [amendOrder] at h
    · simp only [amendOrder] at h
      split_ifs at h <;>
        rcases nb? with _ | n <;> rcases up? with _ | u <;>
        rcases nt? with _ | n1 <;> rcases pr? with _ | p1 <;>
        rcases r? with _ | r1 <;> simp at h <;>
        (obtain ⟨rfl, rfl⟩ := h; simp [amountInvariant])
  · intro cid? cust? p? pm pn pr o c' h
    rcases cid? with _ | cid
    · simp [clearBill] at h
    · rcases p? with _ | p
      · simp [clearBill] at h
      · rcases cust? with _ | cust
        · simp [clearBill] at h
        · simp only [clearBill] at h
          split_ifs at h <;> simp at h <;>
            (obtain ⟨rfl, rfl⟩ := h; simp [amountInvariant])
  · intro o c p pm nt o' c' hInv h
    simp only [deliverOrder, Except.ok.injEq, Prod.mk.injEq] at h
    obtain ⟨rfl, rfl⟩ := h
    simpa [amountInvariant] using hInv
  · intro o c p pm nt o' c' hInv h
    simp only [completeWalkInOrder] at h
    split_ifs at h <;> simp at h <;>
      (obtain ⟨rfl, rfl⟩ := h; simpa [amountInvariant] using hInv)
  · intro o c o' c' hInv h
    simp only [cancelOrder] at h
    split_ifs at h <;> simp at h <;>
      (obtain ⟨rfl, rfl⟩ := h; simpa [amountInvariant] using hInv)
  · intro o nt? pr? nb? st? r? hInv
    rcases nt? with _ | n1 <;> rcases pr? with _ | p1 <;> rcases nb? with _ | b1 <;>
      rcases st? with _ | s1 <;> rcases r? with _ | r1 <;>
      simpa [updateOrder, amountInvariant] using hInv

/-- Witness for `amount_invariant_lifecycle`: a generic update of the
fixture order that supplies no `totalAmount` (only a bottle count) keeps
the amount equation. -/
theorem amount_invariant_lifecycle_witness :
    amountInvariant (updateOrder baseOrder none none none (some 3) none none) :=
  amount_invariant_lifecycle.2.2.2.2.2.2 baseOrder none none (some 3) none none
    (by norm_num [amountInvariant, baseOrder])

/-- Counterexample to C3 as stated: the generic order-update operation can
rewrite `totalAmount` alone, so the equation does not survive it: updating
the fixture's `totalAmount` to 50 leaves `snapshot + currentOrderAmount`
at 100. -/
theorem updateOrder_totalAmount_breaks_invariant :
    amountInvariant baseOrder ∧
    ¬ amountInvariant (updateOrder baseOrder (some 50) none none none none none) := by
  constructor <;> norm_num [amountInvariant, updateOrder, baseOrder]

/-- C8 (amended): a DELIVERY create with a rider starts `ASSIGNED`; a
DELIVERY create without a rider is rejected with a `Validation` error (so
no order ever starts `PENDING` on that path); a WALKIN create starts
`CREATED`; a successful clear-bill creates its `CLEARBILL` order directly
in `COMPLETED`. -/
theorem initial_status_by_type :
    (∀ (cust : Customer) (n u : Rat) (rid : Nat) (nt : Option String) (pr : String),
      ∃ o c1, createOrder (some cust) n u .DELIVERY (some rid) nt pr = .ok (o, c1) ∧
        o.status = .ASSIGNED) ∧
    (∀ (cust : Customer) (n u : Rat) (nt : Option String) (pr : String),
      createOrder (some cust) n u .DELIVERY none nt pr =
        .error (.validation "Rider ID is required for delivery orders")) ∧
    (∀ (cust : Customer) (n u : Rat) (nt : Option String) (pr : String),
      ∃ o c1, createOrder (some cust) n u .WALKIN none nt pr = .ok (o, c1) ∧
        o.status = .CREATED) ∧
    (∀ (cid? : Option String) (cust? : Option Customer) (p? : Option Rat)
        (pm : String) (pn : Option String) (pr : String) (o : Order) (c' : Customer),
      clearBill cid? cust? p? pm pn pr = .ok (o, c') →
        o.status = .COMPLETED ∧ o.orderType = .CLEARBILL) := by
  refine ⟨?_, ?_, ?_, ?_⟩
  · intro cust n u rid nt pr
    exact ⟨_, _, rfl, rfl⟩
  · intro cust n u nt pr
    rfl
  · intro cust n u nt pr
    exact ⟨_, _, rfl, rfl⟩
  · intro cid? cust? p? pm pn pr o c' h
    rcases cid? with _ | cid
    · simp [clearBill] at h
    · rcases p? with _ | p
      · simp [clearBill] at h
      · rcases cust? with _ | cust
        · simp [clearBill] at h
        · simp only [clearBill] at h
          split_ifs at h <;> simp at h <;>
            (obtain ⟨rfl, rfl⟩ := h; exact ⟨rfl, rfl⟩)

/-- Witness for `initial_status_by_type`: the order produced by the
clear-bill scenario is a `CLEARBILL` order born in status `COMPLETED`. -/
theorem initial_status_by_type_witness :
    clearedOrderNeg30.status = .COMPLETED ∧
    clearedOrderNeg30.orderType = .CLEARBILL :=
  initial_status_by_type.2.2.2 (some "c") (some custNeg30) (some 30) "CASH"
    none "NORMAL" clearedOrderNeg30 ⟨0⟩ clearBill_neg30_eval

/-- Counterexample to C8 as stated: a DELIVERY create request without a
rider does not produce a `PENDING` order — it is rejected outright. -/
theorem delivery_without_rider_rejected :
    createOrder (some cust100) 2 50 .DELIVERY none none "NORMAL" =
      .error (.validation "Rider ID is required for delivery orders") := rfl

/-- C9: on orders with equal `totalAmount` and customers with equal
balances, deliver and complete-walk-in (the latter on a WALKIN order in
status `CREATED`) settle identically — same `paidAmount`, `paymentStatus`,
`receivable`, `payable` and new customer balance — and differ only in the
final status, `DELIVERED` versus `COMPLETED`. -/
theorem deliver_walkin_same_settlement (o1 o2 : Order) (c1 c2 : Customer)
    (p : Rat) (pm : String) (nt : Option String)
    (hType : o2.orderType = .WALKIN) (hStatus : o2.status = .CREATED)
    (hTotal : o1.totalAmount = o2.totalAmount)
    (hBal : c1.currentBalance = c2.currentBalance) :
    ∃ d1 e1 d2 e2,
      deliverOrder (some (o1, c1)) p pm nt = .ok (d1, e1) ∧
      completeWalkInOrder (some (o2, c2)) p pm nt = .ok (d2, e2) ∧
      d1.paidAmount = d2.paidAmount ∧
      d1.paymentStatus = d2.paymentStatus ∧
      d1.receivable = d2.receivable ∧
      d1.payable = d2.payable ∧
      e1.currentBalance = e2.currentBalance ∧
      d1.status = .DELIVERED ∧ d2.status = .COMPLETED := by
  simp only [completeWalkInOrder]
  rw [if_neg (by simp [hType]), if_neg (by simp [hStatus])]
  refine ⟨_, _, _, _, rfl, rfl, rfl, ?_, ?_, ?_, ?_, rfl, rfl⟩
  · rw [hTotal]
  · rw [hTotal]
  · rw [hTotal]
  · rw [hBal]

/-- Witness for `deliver_walkin_same_settlement`: the delivery fixture and
the walk-in fixture, both with total 100 and customer balance 100, settled
with a payment of 60. -/
theorem deliver_walkin_same_settlement_witness :
    ∃ d1 e1 d2 e2,
      deliverOrder (some (baseOrder, cust100)) 60 "CASH" none = .ok (d1, e1) ∧
      completeWalkInOrder (some (walkOrder, cust100)) 60 "CASH" none = .ok (d2, e2) ∧
      d1.paidAmount = d2.paidAmount ∧
      d1.paymentStatus = d2.paymentStatus ∧
      d1.receivable = d2.receivable ∧
      d1.payable = d2.payable ∧
      e1.currentBalance = e2.currentBalance ∧
      d1.status = .DELIVERED ∧ d2.status = .COMPLETED :=
  deliver_walkin_same_settlement baseOrder walkOrder cust100 cust100 60 "CASH" none
    rfl rfl rfl rfl

/-- C4: clear-bill returns a `Validation` error when the customer's balance
is zero (the embedding returns the error before any state is produced,
mirroring the handler's check ahead of the transaction); on a negative
balance the paid amount's sign is inverted before being stored on the
order and subtracted from the balance, so the balance moves from `B` to
`B + p`; with balance `-30` and `paidAmount = 30` the stored order has
`paymentStatus = PAID` and `paidAmount = -30`, and the customer ends at
balance 0. -/
theorem clearBill_zero_guard_and_inversion (cid : String) (cust : Customer)
    (p : Rat) (pm : String) (pn : Option String) (pr : String) :
    (cust.currentBalance = 0 →
      clearBill (some cid) (some cust) (some p) pm pn pr =
        .error (.validation "Customer balance is already zero")) ∧
    (cust.currentBalance < 0 →
      ∃ o c', clearBill (some cid) (some cust) (some p) pm pn pr = .ok (o, c') ∧
        o.paidAmount = -p ∧ c'.currentBalance = cust.currentBalance + p) ∧
    (clearBill (some "c") (some custNeg30) (some 30) "CASH" none "NORMAL" =
        .ok (clearedOrderNeg30, ⟨0⟩) ∧
      clearedOrderNeg30.paymentStatus = .PAID ∧
      clearedOrderNeg30.paidAmount = -30 ∧
      (⟨0⟩ : Customer).currentBalance = 0) := by
  refine ⟨?_, ?_, clearBill_neg30_eval, rfl, rfl, rfl⟩
  · intro h
    simp only [clearBill]
    rw [if_pos h]
  · intro h
    simp only [clearBill]
    rw [if_neg h.ne, if_neg (not_lt.mpr h.le)]
    split_ifs <;>
      exact ⟨_, _, rfl, rfl, by rw [sub_neg_eq_add]⟩

/-- Witness for `clearBill_zero_guard_and_inversion`: a zero-balance
customer is rejected; `custNeg30` with a payment of 30 gets a stored
`paidAmount` of `-30` and ends at balance `-30 + 30`. -/
theorem clearBill_zero_guard_and_inversion_witness :
    (clearBill (some "c") (some (⟨0⟩ : Customer)) (some 30) "CASH" none "NORMAL" =
      .error (.validation "Customer balance is already zero")) ∧
    (∃ o c', clearBill (some "c") (some custNeg30) (some 30) "CASH" none "NORMAL" =
        .ok (o, c') ∧
      o.paidAmount = -30 ∧ c'.currentBalance = custNeg30.currentBalance + 30) :=
  ⟨(clearBill_zero_guard_and_inversion "c" ⟨0⟩ 30 "CASH" none "NORMAL").1 rfl,
   (clearBill_zero_guard_and_inversion "c" custNeg30 30 "CASH" none "NORMAL").2.1
     (by norm_num [custNeg30])⟩

/-- C7 (amended): after deliver or complete-walk-in, at most one of
`receivable`, `payable` is non-zero; both are zero exactly when
`paymentAmount = totalAmount`; `paymentStatus = PAID` implies both are
zero, but not conversely (a settlement with `paid = total = 0` leaves both
zero with status `NOT_PAID`; see the counterexample).  For clear-bill the
original equivalence does hold: at most one is non-zero and both are zero
iff `paymentStatus = PAID`. -/
theorem settled_exclusive (o : Order) (c : Customer) (p q : Rat) (pm : String)
    (nt : Option String) (cid : String) (cust : Customer) (pn : Option String)
    (pr : String) :
    (∀ o' c', deliverOrder (some (o, c)) p pm nt = .ok (o', c') →
      (o'.receivable = 0 ∨ o'.payable = 0) ∧
      ((o'.receivable = 0 ∧ o'.payable = 0) ↔ p = o.totalAmount) ∧
      (o'.paymentStatus = .PAID → o'.receivable = 0 ∧ o'.payable = 0)) ∧
    (∀ o' c', completeWalkInOrder (some (o, c)) p pm nt = .ok (o', c') →
      (o'.receivable = 0 ∨ o'.payable = 0) ∧
      ((o'.receivable = 0 ∧ o'.payable = 0) ↔ p = o.totalAmount) ∧
      (o'.paymentStatus = .PAID → o'.receivable = 0 ∧ o'.payable = 0)) ∧
    (∀ o' c', clearBill (some cid) (some cust) (some q) pm pn pr = .ok (o', c') →
      (o'.receivable = 0 ∨ o'.payable = 0) ∧
      ((o'.receivable = 0 ∧ o'.payable = 0) ↔ o'.paymentStatus = .PAID)) := by
  refine ⟨?_, ?_, ?_⟩
  · intro o' c' h
    simp only [deliverOrder, Except.ok.injEq, Prod.mk.injEq] at h
    obtain ⟨rfl, rfl⟩ := h
    refine ⟨ite_pair_zero_or _, ?_, ?_⟩
    · exact (ite_pair_zero_iff _).trans (sub_eq_zero.trans eq_comm)
    · intro hst
      have hpt : p = o.totalAmount := paymentChain_eq_paid hst
      exact (ite_pair_zero_iff _).mpr (sub_eq_zero.mpr hpt.symm)
  · intro o' c' h
    rcases eq_or_ne o.orderType .WALKIN with hT | hT
    · rcases eq_or_ne o.status .CREATED with hS | hS
      · simp only [completeWalkInOrder] at h
        rw [if_neg (by simp [hT]), if_neg (by simp [hS])] at h
        simp only [Except.ok.injEq, Prod.mk.injEq] at h
        obtain ⟨rfl, rfl⟩ := h
        refine ⟨ite_pair_zero_or _, ?_, ?_⟩
        · exact (ite_pair_zero_iff _).trans (sub_eq_zero.trans eq_comm)
        · intro hst
          have hpt : p = o.totalAmount := paymentChain_eq_paid hst
          exact (ite_pair_zero_iff _).mpr (sub_eq_zero.mpr hpt.symm)
      · simp only [completeWalkInOrder] at h
        rw [if_neg (by simp [hT]), if_pos hS] at h
        simp at h
    · simp only [completeWalkInOrder] at h
      rw [if_pos hT] at h
      simp at h
  · intro o' c' h
    simp only [clearBill] at h
    split_ifs at h <;> simp at h <;>
      (obtain ⟨rfl, rfl⟩ := h; constructor <;> simp_all) <;>
      try linarith

/-- Witness for `settled_exclusive`: the delivered fixture (partial payment
60 of 100) and the cleared fixture (`custNeg30` paid in full). -/
theorem settled_exclusive_witness :
    ((deliveredOrder60.receivable = 0 ∨ deliveredOrder60.payable = 0) ∧
      ((deliveredOrder60.receivable = 0 ∧ deliveredOrder60.payable = 0) ↔
        (60 : Rat) = baseOrder.totalAmount) ∧
      (deliveredOrder60.paymentStatus = .PAID →
        deliveredOrder60.receivable = 0 ∧ deliveredOrder60.payable = 0)) ∧
    ((clearedOrderNeg30.receivable = 0 ∨ clearedOrderNeg30.payable = 0) ∧
      ((clearedOrderNeg30.receivable = 0 ∧ clearedOrderNeg30.payable = 0) ↔
        clearedOrderNeg30.paymentStatus = .PAID)) :=
  ⟨(settled_exclusive baseOrder cust100 60 30 "CASH" none "c" custNeg30 none
      "NORMAL").1 deliveredOrder60 ⟨40⟩ deliver60_eval,
   (settled_exclusive baseOrder cust100 60 30 "CASH" none "c" custNeg30 none
      "NORMAL").2.2 clearedOrderNeg30 ⟨0⟩ clearBill_neg30_eval⟩

/-- Counterexample to C7 as stated: delivering the zero-total fixture with
a payment of 0 is a settled order with `receivable = payable = 0` whose
`paymentStatus` is `NOT_PAID`, not `PAID`. -/
theorem settled_both_zero_without_paid :
    deliverOrder (some (zeroTotalOrder, ⟨0⟩)) 0 "CASH" none =
      .ok (zeroSettled, ⟨0⟩) ∧
    zeroSettled.receivable = 0 ∧ zeroSettled.payable = 0 ∧
    zeroSettled.paymentStatus = .NOT_PAID ∧ zeroSettled.paymentStatus ≠ .PAID :=
  ⟨zeroSettled_eval, rfl, rfl, rfl, by simp [zeroSettled, zeroTotalOrder, baseOrder]⟩

end OrderLedger
